import Mathlib

/-!
# Verification of the portfolio project gallery and download page

Shallow embedding of the TypeScript sources of the portfolio repository:
the static project data table, the project carousel component
(ProjectSection.tsx) and the docker-compose download page.  Pure helper
functions of the components become Lean functions; component state becomes
an explicit state record with a step function over UI events.
-/

/-- The record shape of one project entry, from the exported TypeScript
interface Project (title, description, projectUrl, imageUrl, optional
technologies, category, status, gradient, accentColor).  The status union
type of the source is represented as a String; the theorems check that the
data only uses the three literals of the union. -/
structure Project where
  title : String
  description : String
  projectUrl : String
  imageUrl : String
  technologies : Option (List String)
  category : String
  status : String
  gradient : String
  accentColor : String
deriving DecidableEq, Repr

/-- The static, hand-authored list of project records, transcribed field by
field from the exported const projects array of the data module. -/
def projects : List Project := [
  { title := "Ace Coding Academy",
    description := "An interactive educational platform designed to help students master coding skills. Features comprehensive learning paths for multiple programming languages, interactive coding challenges, detailed programming notes, and curated tech news. The platform includes progress tracking, hands-on exercises, and stays up-to-date with the latest developments in technology and programming trends. Perfect for both beginners and intermediate learners looking to enhance their coding expertise.",
    projectUrl := "https://acecodingacademy.com",
    imageUrl := "https://images.unsplash.com/photo-1516321318423-f06f85e504b3?w=800&h=600&fit=crop&crop=center",
    category := "Education Platform",
    status := "Live",
    gradient := "from-blue-400 via-sky-400 to-cyan-400",
    accentColor := "blue",
    technologies := some ["Next.js", "React", "PWA", "TypeScript", "Three.js", "TailwindCSS", "Framer Motion", "Node.js", "Prisma", "MongoDB", "S3", "Vercel"] },
  { title := "AI Email Generator",
    description := "An intelligent email generation platform powered by advanced language models and prompt engineering techniques. Users can create professional email templates for various purposes including business communications, cold outreach, customer support, and personal correspondence. The platform leverages OpenAI API integration with fine-tuned prompts to generate contextually appropriate, well-structured emails. Features include template customization, tone adjustment, multiple email categories, and instant generation capabilities for enhanced productivity.",
    projectUrl := "https://email-generator-zeta.vercel.app/",
    imageUrl := "https://images.unsplash.com/photo-1551434678-e076c223a692?w=800&h=600&fit=crop&crop=center",
    category := "AI Tool",
    status := "Live",
    gradient := "from-purple-400 via-violet-400 to-indigo-400",
    accentColor := "purple",
    technologies := some ["Next.js", "React", "TypeScript", "OpenAI API", "Prompt Engineering", "TailwindCSS", "Node.js", "AI/ML", "LLM Integration", "Vercel"] },
  { title := "Pickagoo Delivery Platform",
    description := "A comprehensive delivery management platform featuring multi-role access (customers, drivers, admins). Includes complete order lifecycle management, SingPass integration for verification, and enterprise-level features. Key functionalities: authentication, real-time order tracking, notifications, driver-customer matching, reviews & ratings, credibility scoring system, bulk order processing via Excel, and specialized company contract management for corporate clients.",
    projectUrl := "https://pickagoo.com",
    imageUrl := "https://images.unsplash.com/photo-1704652838446-edc4448d6261?q=80&w=800&h=500&auto=format&fit=crop&ixlib=rb-4.1.0&ixid=M3wxMjA3fDB8MHxwaG90by1wYWdlfHx8fGVufDB8fHx8fA%3D%3D",
    category := "Delivery Platform",
    status := "Live",
    gradient := "from-cyan-400 via-blue-400 to-indigo-400",
    accentColor := "cyan",
    technologies := some ["Next.js", "React", "TypeScript", "TailwindCSS", "Framer Motion", "Node.js", "Prisma", "MongoDB", "Redis", "S3", "Twilio", "Firebase Cloud Messaging", "SingPass", "Vercel"] },
  { title := "最爱小说网",
    description := "A free online novel reading website allowing users to read a wide range of novels. Built with Next.js, React, and TypeScript, it leverages the Cheerio JavaScript library for web scraping to aggregate and serve novel content. Hosted on Vercel, the platform provides a seamless and fast reading experience for users seeking Chinese web novels.",
    projectUrl := "https://novel-xiaoshuo.vercel.app/",
    imageUrl := "https://images.unsplash.com/photo-1506744038136-46273834b3fb?w=800&h=600&fit=crop&crop=center",
    category := "Novel Website",
    status := "Live",
    gradient := "from-cyan-400 via-blue-400 to-indigo-400",
    accentColor := "cyan",
    technologies := some ["Next.js", "React", "PWA", "TypeScript", "Web Scraping", "Cheerio", "Vercel", "TailwindCSS", "Framer Motion", "Node.js", "MongoDB"] },
  { title := "UI Academy",
    description := "A documentation site that serves as a comprehensive resource for reusable React components, animation, and utilities built with TypeScript and Tailwind CSS. Users can easily copy and paste components for rapid development. Features include pre-built customizable components, context providers, custom hooks, and utility functions, all with a TypeScript-first approach for better code quality and productivity.",
    projectUrl := "https://ui-academy.vercel.app/",
    imageUrl := "https://images.unsplash.com/photo-1461749280684-dccba630e2f6?w=800&h=600&fit=crop&crop=center",
    category := "Component Library Documentation",
    status := "Live",
    gradient := "from-blue-400 via-sky-400 to-cyan-400",
    accentColor := "blue",
    technologies := some ["Next.js", "React", "TypeScript", "TailwindCSS", "Framer Motion", "Component Library", "Documentation", "Vercel"] },
  { title := "Agentic Weather Chatbot",
    description := "An intelligent conversational AI system that leverages advanced language models and sophisticated prompt engineering to provide contextually aware weather information and insights. The chatbot utilizes function calling capabilities to orchestrate multiple weather APIs, tools, and services, delivering personalized responses based on user location, preferences, and historical interaction patterns. Features include multi-turn conversations, real-time weather data integration, predictive analytics for weather trends, natural language processing for complex queries, and adaptive learning from user interactions to improve response accuracy and relevance over time.",
    projectUrl := "https://weather-chatbot-demo.vercel.app",
    imageUrl := "https://images.unsplash.com/photo-1504608524841-42fe6f032b4b?w=800&h=600&fit=crop&crop=center",
    category := "AI Weather Assistant",
    status := "In Development",
    gradient := "from-indigo-400 via-blue-400 to-sky-400",
    accentColor := "indigo",
    technologies := some ["OpenAI API", "LLM Integration", "Prompt Engineering", "Function Calling", "Tool Orchestration", "Context Management", "TypeScript", "Node.js", "Weather APIs", "Natural Language Processing", "AI/ML", "Vercel"] }
]

/-- A rendered description paragraph as the DOM reports it: total content
height and visible height, the two quantities checkTruncation compares. -/
structure Para where
  scrollHeight : Nat
  clientHeight : Nat
deriving DecidableEq, Repr

/-- From ProjectSection.tsx, checkTruncation: maps each description ref to
whether its content overflows the clamped box (a missing ref maps to
false), producing the isTruncated array. -/
def checkTruncation (refs : List (Option Para)) : List Bool :=
  refs.map (fun ref => match ref with
    | none => false
    | some r => decide (r.scrollHeight > r.clientHeight))

/-- The render guard of the Read more button in ProjectSection.tsx: the
JSX condition isTruncated[index], where an out-of-range access is
undefined and hence falsy. -/
def readMoreRendered (isTruncated : List Bool) (index : Nat) : Bool :=
  isTruncated[index]?.getD false

/-- The slice of the Swiper instance the click handlers read and update:
the active slide index and the number of slides. -/
structure SwiperState where
  activeIndex : Nat
  slidesCount : Nat
deriving DecidableEq, Repr

/-- Modelled from the spec: the third-party slider call slideNext, a
directional navigation step of the carousel library, moving one slide
forward. -/
def slideNext (s : SwiperState) : SwiperState :=
  { s with activeIndex := s.activeIndex + 1 }

/-- Modelled from the spec: the third-party slider call slidePrev, a
directional navigation step of the carousel library, moving one slide
backward. -/
def slidePrev (s : SwiperState) : SwiperState :=
  { s with activeIndex := s.activeIndex - 1 }

/-- Modelled from the spec: the third-party slider call slideToLoop i,
which jumps the carousel to slide i. -/
def slideToLoop (s : SwiperState) (i : Nat) : SwiperState :=
  { s with activeIndex := i }

/-- From ProjectSection.tsx, handleNextClick: on the last slide jump back
to slide 0, otherwise advance one slide. -/
def handleNextClick (s : SwiperState) : SwiperState :=
  if s.activeIndex = s.slidesCount - 1 then slideToLoop s 0 else slideNext s

/-- From ProjectSection.tsx, handlePrevClick: on slide 0 jump to the last
slide, otherwise go back one slide. -/
def handlePrevClick (s : SwiperState) : SwiperState :=
  if s.activeIndex = 0 then slideToLoop s (s.slidesCount - 1) else slidePrev s

/-- From ProjectSection.tsx, toggleCard: remove the index from the
expanded list when present, append it when absent. -/
def toggleCard (index : Nat) (prev : List Nat) : List Nat :=
  if prev.contains index then prev.filter (fun i => i ≠ index) else prev ++ [index]

/-- From ProjectSection.tsx: the record of Tailwind class strings one
accent color maps to. -/
structure AccentColors where
  text : String
  bg : String
  border : String
  hover : String
deriving DecidableEq, Repr

/-- The blue entry of the colors table in getAccentColors. -/
def blueAccent : AccentColors :=
  { text := "text-blue-600 dark:text-blue-300",
    bg := "bg-blue-50 dark:bg-blue-900/40",
    border := "border-blue-200 dark:border-blue-700/60",
    hover := "hover:bg-blue-100 dark:hover:bg-blue-800/60" }

/-- The cyan entry of the colors table in getAccentColors. -/
def cyanAccent : AccentColors :=
  { text := "text-cyan-600 dark:text-cyan-300",
    bg := "bg-cyan-50 dark:bg-cyan-900/40",
    border := "border-cyan-200 dark:border-cyan-700/60",
    hover := "hover:bg-cyan-100 dark:hover:bg-cyan-800/60" }

/-- The indigo entry of the colors table in getAccentColors. -/
def indigoAccent : AccentColors :=
  { text := "text-indigo-600 dark:text-indigo-300",
    bg := "bg-indigo-50 dark:bg-indigo-900/40",
    border := "border-indigo-200 dark:border-indigo-700/60",
    hover := "hover:bg-indigo-100 dark:hover:bg-indigo-800/60" }

/-- A JavaScript value that the colors table lookup can produce: one of
the own records of the table, a truthy value inherited from
Object.prototype (a built-in method such as constructor or toString, or
the Object.prototype object itself for the key __proto__), or undefined
for an absent key. -/
inductive JsValue where
  | record (c : AccentColors)
  | inherited (name : String)
  | undef
deriving DecidableEq, Repr

/-- The own property names of Object.prototype: a property access on the
object literal colors walks the prototype chain, so these keys hit a
truthy inherited value instead of undefined. -/
def objectPrototypeKeys : List String :=
  ["constructor", "hasOwnProperty", "isPrototypeOf", "propertyIsEnumerable",
   "toLocaleString", "toString", "valueOf",
   "__defineGetter__", "__defineSetter__", "__lookupGetter__",
   "__lookupSetter__", "__proto__"]

/-- The JavaScript property access colors[color] (the TypeScript cast is
erased at runtime): the three own keys return their records, a key of
Object.prototype returns the inherited truthy value, and every other key
is undefined. -/
def colorsLookup (color : String) : JsValue :=
  if color = "blue" then JsValue.record blueAccent
  else if color = "cyan" then JsValue.record cyanAccent
  else if color = "indigo" then JsValue.record indigoAccent
  else if color ∈ objectPrototypeKeys then JsValue.inherited color
  else JsValue.undef

/-- From ProjectSection.tsx, getAccentColors: colors[color] ||
colors.blue.  The or operator keeps the left value when it is truthy;
only an undefined lookup, a key that is neither an own key of the table
nor a key of Object.prototype, falls back to the blue record. -/
def getAccentColors (color : String) : JsValue :=
  if colorsLookup color = JsValue.undef then JsValue.record blueAccent
  else colorsLookup color

/-- The call window.open(url, target, features) issued by a card click,
recorded as data. -/
structure WindowOpen where
  url : String
  target : String
  features : String
deriving DecidableEq, Repr

/-- From ProjectSection.tsx, handleCardClick: open the project URL in a
new tab with the noopener,noreferrer features. -/
def handleCardClick (projectUrl : String) : WindowOpen :=
  { url := projectUrl, target := "_blank", features := "noopener,noreferrer" }

/-- One rendered SwiperSlide of the carousel: the key string the map
callback builds and the project the card shows. -/
structure Slide where
  key : String
  project : Project
deriving DecidableEq, Repr

/-- The slide list the Swiper body renders: guarded by projects.length > 0
(undefined and null cannot arise for a Lean list), one SwiperSlide per
entry of the mapped array, keyed img-(index). -/
def renderSlides (ps : List Project) : List Slide :=
  if 0 < ps.length then
    ps.enum.map (fun ip => { key := "img-" ++ toString ip.1, project := ip.2 })
  else []

/-- The click effect of the card of one slide: handleCardClick applied to
the projectUrl of the project on the card. -/
def cardClickEffect (s : Slide) : WindowOpen :=
  handleCardClick s.project.projectUrl

/-- The three-state display flag of the download page, from the useState
union type of DockerDownloadPage. -/
inductive DownloadStatus where
  | downloading
  | success
  | error
deriving DecidableEq, Repr

/-- The anchor element downloadFile builds: its href and its download
attribute. -/
structure DownloadLink where
  href : String
  download : String
deriving DecidableEq, Repr

/-- The link element created in the try block of downloadFile. -/
def downloadTriggerLink : DownloadLink :=
  { href := "/docker-compose.yml", download := "docker-compose.yml" }

/-- A DOM side effect of the download page, recorded as data; the page
performs only these local element operations, no request to a server. -/
inductive DomEffect where
  | appendChild (link : DownloadLink)
  | clickLink (link : DownloadLink)
  | removeChild (link : DownloadLink)
deriving DecidableEq, Repr

/-- The effect sequence of the try block of downloadFile: append the
static link to the body, click it, remove it. -/
def downloadFileEffects : List DomEffect :=
  [DomEffect.appendChild downloadTriggerLink,
   DomEffect.clickLink downloadTriggerLink,
   DomEffect.removeChild downloadTriggerLink]

/-- From the download page, downloadFile: the try block ends in
setDownloadStatus success; the catch branch sets error.  The parameter
says whether the try block throws. -/
def downloadFile (throws : Bool) : DownloadStatus :=
  if throws then DownloadStatus.error else DownloadStatus.success

/-- The combined mutable UI state of the application: the fields held in
useState and useRef by ProjectSection (expandedCards, isTruncated,
showSwipeHint, the Swiper instance) and by DockerDownloadPage
(downloadStatus), together with the projects data the components read and
a counter of window.location.reload calls. -/
structure UIState where
  projectsData : List Project
  expandedCards : List Nat
  isTruncated : List Bool
  showSwipeHint : Bool
  swiper : SwiperState
  downloadStatus : DownloadStatus
  pageReloads : Nat
deriving DecidableEq, Repr

/-- The initial state: useState([]) for expandedCards, useState([]) for
isTruncated, useState(true) for showSwipeHint, the Swiper mounted on slide
0 over the rendered slides, and useState(downloading) on the download
page. -/
def initUIState : UIState :=
  { projectsData := projects,
    expandedCards := [],
    isTruncated := [],
    showSwipeHint := true,
    swiper := { activeIndex := 0, slidesCount := (renderSlides projects).length },
    downloadStatus := DownloadStatus.downloading,
    pageReloads := 0 }

/-- The UI events of the application: the Next and Prev button clicks, the
slideChange event of the slider, the 5 second swipe-hint timeout, a Read
more toggle, a truncation re-check (mount timer or resize), a card click,
the retry button of the download page, and the completion of the mount
download effect. -/
inductive UIOp where
  | nextClick
  | prevClick
  | slideChange
  | swipeHintTimer
  | toggle (index : Nat)
  | truncationCheck (refs : List (Option Para))
  | cardClick (url : String)
  | retryClick
  | downloadRun (throws : Bool)
deriving DecidableEq, Repr

/-- From ProjectSection.tsx, handleSlideChange: the slideChange listener
hides the swipe hint. -/
def handleSlideChange (s : UIState) : UIState :=
  { s with showSwipeHint := false }

/-- One UI event applied to the state, following the handler code of each
event: nextClick and prevClick run the carousel handlers, slideChange runs
handleSlideChange, the swipe-hint timeout fires only under the effect
guard showSwipeHint and projects.length > 1, toggle runs toggleCard,
truncationCheck runs checkTruncation over the current refs, a card click
only opens a window and changes no state, retryClick sets downloading and
reloads the page, and the mount download effect ends in the status
downloadFile computes. -/
def applyOp (op : UIOp) (s : UIState) : UIState :=
  match op with
  | UIOp.nextClick => { s with swiper := handleNextClick s.swiper }
  | UIOp.prevClick => { s with swiper := handlePrevClick s.swiper }
  | UIOp.slideChange => handleSlideChange s
  | UIOp.swipeHintTimer =>
      if s.showSwipeHint ∧ 1 < projects.length then
        { s with showSwipeHint := false }
      else s
  | UIOp.toggle index => { s with expandedCards := toggleCard index s.expandedCards }
  | UIOp.truncationCheck refs => { s with isTruncated := checkTruncation refs }
  | UIOp.cardClick _ => s
  | UIOp.retryClick =>
      { s with downloadStatus := DownloadStatus.downloading,
               pageReloads := s.pageReloads + 1 }
  | UIOp.downloadRun throws => { s with downloadStatus := downloadFile throws }

/-- A sequence of UI events applied in order. -/
def applyOps (ops : List UIOp) (s : UIState) : UIState :=
  ops.foldl (fun s op => applyOp op s) s

/-! ## Helper lemmas shared by the claim theorems -/

/-- The length guard in the Swiper body is redundant for a Lean list: the
rendered slide list is always the indexed map of the project list. -/
theorem renderSlides_eq_map (ps : List Project) :
    renderSlides ps =
      ps.enum.map (fun ip => { key := "img-" ++ toString ip.1, project := ip.2 }) := by
  cases ps with
  | nil => rfl
  | cons a l => simp [renderSlides]

/-- Membership after one toggleCard: the toggled index flips, every other
index keeps its membership. -/
theorem mem_toggleCard (index j : Nat) (l : List Nat) :
    (j ∈ toggleCard index l ↔ if j = index then index ∉ l else j ∈ l) := by
  unfold toggleCard
  by_cases hmem : index ∈ l
  · rw [if_pos (by simpa using hmem)]
    by_cases hj : j = index
    · subst hj
      simp [List.mem_filter, hmem]
    · simp [List.mem_filter, hj]
  · rw [if_neg (by simpa using hmem)]
    by_cases hj : j = index
    · subst hj
      simp [hmem]
    · simp [hj]

/-- No UI event writes the projects data field. -/
theorem applyOp_projectsData (op : UIOp) (s : UIState) :
    (applyOp op s).projectsData = s.projectsData := by
  cases op <;> try rfl
  dsimp only [applyOp]
  split <;> rfl

/-- No sequence of UI events writes the projects data field. -/
theorem applyOps_projectsData (ops : List UIOp) (s : UIState) :
    (applyOps ops s).projectsData = s.projectsData := by
  induction ops generalizing s with
  | nil => rfl
  | cons op ops ih =>
      calc (applyOps (op :: ops) s).projectsData
          = (applyOps ops (applyOp op s)).projectsData := rfl
        _ = (applyOp op s).projectsData := ih (applyOp op s)
        _ = s.projectsData := applyOp_projectsData op s

/-- One UI event never turns the swipe hint back on. -/
theorem applyOp_hint_mono (op : UIOp) (s : UIState) (h : s.showSwipeHint = false) :
    (applyOp op s).showSwipeHint = false := by
  cases op <;> try first | exact h | rfl
  dsimp only [applyOp]
  split
  · rfl
  · exact h

/-- No sequence of UI events turns the swipe hint back on. -/
theorem applyOps_hint_mono (ops : List UIOp) (s : UIState) (h : s.showSwipeHint = false) :
    (applyOps ops s).showSwipeHint = false := by
  induction ops generalizing s with
  | nil => exact h
  | cons op ops ih => exact ih (applyOp op s) (applyOp_hint_mono op s h)

/-! ## Claim theorems -/

/-- Claim C1: for a card whose description paragraph is mounted, the Read
more toggle is rendered after the truncation check exactly when the
paragraph content height exceeds its visible height under the three-line
clamp; a description fitting its clamp never shows the toggle. -/
theorem readMore_toggle_iff_overflow (refs : List (Option Para)) (i : Nat) (r : Para)
    (h : refs[i]? = some (some r)) :
    (readMoreRendered (checkTruncation refs) i = true ↔ r.scrollHeight > r.clientHeight) := by
  unfold readMoreRendered checkTruncation
  rw [List.getElem?_map, h]
  simp

/-- Witness for claim C1 at a concrete paragraph of content height 100 in
a 72 pixel clamp box. -/
theorem readMore_toggle_iff_overflow_witness :
    readMoreRendered (checkTruncation [some { scrollHeight := 100, clientHeight := 72 }]) 0 = true :=
  (readMore_toggle_iff_overflow [some { scrollHeight := 100, clientHeight := 72 }] 0
    { scrollHeight := 100, clientHeight := 72 } rfl).mpr (by decide)

/-- Claim C2: the carousel click handlers wrap at the ends and otherwise
move the active index by exactly one: Next on the last slide goes to slide
0, Prev on slide 0 goes to the last slide, Next elsewhere adds one, Prev
elsewhere subtracts one. -/
theorem carousel_navigation_wraps (s : SwiperState) :
    (s.activeIndex = s.slidesCount - 1 → (handleNextClick s).activeIndex = 0) ∧
    (s.activeIndex = 0 → (handlePrevClick s).activeIndex = s.slidesCount - 1) ∧
    (s.activeIndex ≠ s.slidesCount - 1 → (handleNextClick s).activeIndex = s.activeIndex + 1) ∧
    (s.activeIndex ≠ 0 → (handlePrevClick s).activeIndex = s.activeIndex - 1) := by
  unfold handleNextClick handlePrevClick slideNext slidePrev slideToLoop
  refine ⟨?_, ?_, ?_, ?_⟩ <;> intro h <;> simp [h]

/-- Witness for claim C2 on a six-slide carousel: wrap forward from slide
5, wrap backward from slide 0, and single steps from slide 2. -/
theorem carousel_navigation_wraps_witness :
    (handleNextClick { activeIndex := 5, slidesCount := 6 }).activeIndex = 0 ∧
    (handlePrevClick { activeIndex := 0, slidesCount := 6 }).activeIndex = 5 ∧
    (handleNextClick { activeIndex := 2, slidesCount := 6 }).activeIndex = 3 ∧
    (handlePrevClick { activeIndex := 2, slidesCount := 6 }).activeIndex = 1 :=
  ⟨(carousel_navigation_wraps { activeIndex := 5, slidesCount := 6 }).1 (by decide),
   (carousel_navigation_wraps { activeIndex := 0, slidesCount := 6 }).2.1 rfl,
   (carousel_navigation_wraps { activeIndex := 2, slidesCount := 6 }).2.2.1 (by decide),
   (carousel_navigation_wraps { activeIndex := 2, slidesCount := 6 }).2.2.2 (by decide)⟩

/-- Claim C3: the download page flag has exactly the three states
downloading, success and error; it is downloading on mount, the download
effect ends in success when the try block completes and in error exactly
when it throws, and the retry button sets the flag back to downloading and
reloads the page. -/
theorem download_status_machine :
    (∀ d : DownloadStatus, d = DownloadStatus.downloading ∨ d = DownloadStatus.success ∨
        d = DownloadStatus.error) ∧
    initUIState.downloadStatus = DownloadStatus.downloading ∧
    (∀ s : UIState, (applyOp (UIOp.downloadRun false) s).downloadStatus = DownloadStatus.success) ∧
    (∀ s : UIState, (applyOp (UIOp.downloadRun true) s).downloadStatus = DownloadStatus.error) ∧
    (∀ s : UIState, (applyOp UIOp.retryClick s).downloadStatus = DownloadStatus.downloading ∧
        (applyOp UIOp.retryClick s).pageReloads = s.pageReloads + 1) := by
  refine ⟨?_, rfl, fun s => rfl, fun s => rfl, fun s => ⟨rfl, rfl⟩⟩
  intro d
  cases d <;> simp

/-- Claim C4: the Swiper body renders exactly one slide per entry of the
project array, in array order, whatever the array holds: the slide list
has the same length, and the slide at each index carries the project at
that index. -/
theorem one_slide_per_project (ps : List Project) (i : Nat) :
    (renderSlides ps).length = ps.length ∧
    (renderSlides ps)[i]? =
      (ps[i]?).map (fun p => { key := "img-" ++ toString i, project := p }) := by
  constructor
  · rw [renderSlides_eq_map]
    simp
  · rw [renderSlides_eq_map, List.getElem?_map, List.getElem?_enum]
    cases ps[i]? <;> rfl

/-- Claim C5: clicking the card of any rendered slide issues window.open
on that slide's project URL with target _blank and the
noopener,noreferrer features. -/
theorem card_click_opens_new_tab (ps : List Project) (i : Nat) :
    ((renderSlides ps)[i]?).map cardClickEffect =
      (ps[i]?).map (fun p =>
        { url := p.projectUrl, target := "_blank", features := "noopener,noreferrer" }) := by
  rw [renderSlides_eq_map, List.getElem?_map, List.getElem?_enum]
  cases ps[i]? <;> rfl

/-- Claim C6: the projects data is static: no sequence of UI events
changes it from its initial value, and every record uses a status from
the three-literal union Live, In Development, Completed (the remaining
fields, including the display colors gradient and accentColor and the
optional technology tags, are carried by the record type itself). -/
theorem projects_static_invariant :
    (∀ ops : List UIOp, (applyOps ops initUIState).projectsData = projects) ∧
    (∀ p ∈ projects, p.status = "Live" ∨ p.status = "In Development" ∨
        p.status = "Completed") := by
  constructor
  · intro ops
    rw [applyOps_projectsData]
    rfl
  · decide

/-- Witness for claim C6: a concrete event sequence leaves the data
unchanged, and the last record has a union status. -/
theorem projects_static_invariant_witness :
    (applyOps [UIOp.slideChange, UIOp.toggle 0] initUIState).projectsData = projects ∧
    ((projects.get ⟨5, by decide⟩).status = "Live" ∨
     (projects.get ⟨5, by decide⟩).status = "In Development" ∨
     (projects.get ⟨5, by decide⟩).status = "Completed") :=
  ⟨projects_static_invariant.1 [UIOp.slideChange, UIOp.toggle 0],
   projects_static_invariant.2 (projects.get ⟨5, by decide⟩)
     (List.get_mem projects 5 (by decide))⟩

/-- Claim C7: the download is driven by a link whose href is the static
path /docker-compose.yml and whose download attribute is
docker-compose.yml, and the effect sequence of the download action holds
only local DOM operations on that static link, no server call. -/
theorem download_link_static :
    downloadTriggerLink = { href := "/docker-compose.yml", download := "docker-compose.yml" } ∧
    downloadFileEffects =
      [DomEffect.appendChild downloadTriggerLink,
       DomEffect.clickLink downloadTriggerLink,
       DomEffect.removeChild downloadTriggerLink] ∧
    (∀ e ∈ downloadFileEffects,
       e = DomEffect.appendChild downloadTriggerLink ∨
       e = DomEffect.clickLink downloadTriggerLink ∨
       e = DomEffect.removeChild downloadTriggerLink) := by
  refine ⟨rfl, rfl, ?_⟩
  decide

/-- Witness for claim C7 at the click effect of the sequence. -/
theorem download_link_static_witness :
    DomEffect.clickLink downloadTriggerLink = DomEffect.appendChild downloadTriggerLink ∨
    DomEffect.clickLink downloadTriggerLink = DomEffect.clickLink downloadTriggerLink ∨
    DomEffect.clickLink downloadTriggerLink = DomEffect.removeChild downloadTriggerLink :=
  download_link_static.2.2 (DomEffect.clickLink downloadTriggerLink) (by decide)

/-- Claim C8: toggleCard is an involution on membership: applying it
twice at an index restores the membership of every index, one application
flips exactly the membership of the toggled index and leaves every other
index unchanged. -/
theorem toggleCard_involutive_membership (index : Nat) (l : List Nat) :
    (∀ j, j ∈ toggleCard index (toggleCard index l) ↔ j ∈ l) ∧
    (index ∈ toggleCard index l ↔ index ∉ l) ∧
    (∀ j, j ≠ index → (j ∈ toggleCard index l ↔ j ∈ l)) := by
  refine ⟨?_, ?_, ?_⟩
  · intro j
    by_cases hj : j = index
    · subst hj
      simp [mem_toggleCard]
    · simp [mem_toggleCard, hj]
  · simp [mem_toggleCard]
  · intro j hj
    simp [mem_toggleCard, hj]

/-- Witness for claim C8 at index 1 over the list holding 0. -/
theorem toggleCard_involutive_membership_witness :
    ((0 : Nat) ∈ toggleCard 1 (toggleCard 1 [0]) ↔ (0 : Nat) ∈ [(0 : Nat)]) ∧
    ((1 : Nat) ∈ toggleCard 1 [0] ↔ (1 : Nat) ∉ [(0 : Nat)]) ∧
    ((0 : Nat) ∈ toggleCard 1 [0] ↔ (0 : Nat) ∈ [(0 : Nat)]) :=
  ⟨(toggleCard_involutive_membership 1 [0]).1 0,
   (toggleCard_involutive_membership 1 [0]).2.1,
   (toggleCard_involutive_membership 1 [0]).2.2 0 (by decide)⟩

/-- Claim C9, counterexample: at the input constructor the property
access hits the inherited constructor property of Object.prototype, which
is truthy, so the or fallback never fires: getAccentColors returns the
inherited value, not a color-class record and in particular not the blue
record, refuting the universal of the claim. -/
theorem getAccentColors_constructor_counterexample :
    getAccentColors "constructor" = JsValue.inherited "constructor" ∧
    getAccentColors "constructor" ≠ JsValue.record blueAccent := by
  constructor
  · decide
  · decide

/-- Claim C9, amended: getAccentColors is total, and for every
unrecognized input that is not a key of Object.prototype it returns
exactly the blue record; a key of Object.prototype returns the truthy
inherited value instead.  The static data actually contains the key
purple, which is no prototype key and so maps to the blue record. -/
theorem getAccentColors_default_blue_unless_inherited :
    (∀ c : String, c ≠ "blue" → c ≠ "cyan" → c ≠ "indigo" →
        c ∉ objectPrototypeKeys → getAccentColors c = JsValue.record blueAccent) ∧
    (∀ c ∈ objectPrototypeKeys, getAccentColors c = JsValue.inherited c) ∧
    (∃ p ∈ projects, p.accentColor = "purple") ∧
    getAccentColors "purple" = JsValue.record blueAccent := by
  refine ⟨?_, by decide,
    ⟨projects.get ⟨1, by decide⟩, List.get_mem projects 1 (by decide), by decide⟩,
    by decide⟩
  intro c h1 h2 h3 h4
  simp [getAccentColors, colorsLookup, h1, h2, h3, h4]

/-- Witness for claim C9 at the data key purple and the prototype key
toString. -/
theorem getAccentColors_default_blue_unless_inherited_witness :
    getAccentColors "purple" = JsValue.record blueAccent ∧
    getAccentColors "toString" = JsValue.inherited "toString" :=
  ⟨getAccentColors_default_blue_unless_inherited.1 "purple"
      (by decide) (by decide) (by decide) (by decide),
   getAccentColors_default_blue_unless_inherited.2.1 "toString" (by decide)⟩

/-- Claim C10: the swipe hint starts shown, the slideChange event and the
5 second timeout hide it, and no sequence of UI events ever shows it
again once hidden. -/
theorem swipe_hint_monotone_hidden :
    initUIState.showSwipeHint = true ∧
    (∀ s : UIState, (applyOp UIOp.slideChange s).showSwipeHint = false) ∧
    (∀ s : UIState, (applyOp UIOp.swipeHintTimer s).showSwipeHint = false) ∧
    (∀ (ops : List UIOp) (s : UIState), s.showSwipeHint = false →
        (applyOps ops s).showSwipeHint = false) := by
  refine ⟨rfl, fun s => rfl, ?_, fun ops s h => applyOps_hint_mono ops s h⟩
  intro s
  dsimp only [applyOp]
  split
  · rfl
  · rename_i hcond
    cases hb : s.showSwipeHint
    · rfl
    · exact absurd ⟨hb, by decide⟩ hcond

/-- Witness for claim C10: after the hint is hidden by a slide change, a
concrete later event sequence keeps it hidden. -/
theorem swipe_hint_monotone_hidden_witness :
    (applyOps [UIOp.nextClick, UIOp.toggle 2, UIOp.prevClick]
      (applyOp UIOp.slideChange initUIState)).showSwipeHint = false :=
  swipe_hint_monotone_hidden.2.2.2 [UIOp.nextClick, UIOp.toggle 2, UIOp.prevClick]
    (applyOp UIOp.slideChange initUIState) rfl
